import Mathlib

/-!
Verification of the whylogs repository slice: a shallow embedding of the
legacy-profile migration converter (`whylogs/migration/converters.py`) and of
the metric / UDF-schema model described by the specification, together with
theorems settling the frozen claims about them.

Numeric fields carried by messages and metrics are modelled with `ℚ`
(exact arithmetic); serialized sketch payloads are modelled as byte lists,
and the external datasketches library's deserialize / widen operations are
modelled as tagging constructors, since their internals are outside the
system under specification.
-/

namespace Whylogs

/-! ## Legacy (v0) wire-format messages, as read by the migration converter -/

/-- The legacy inferred-type enumeration tags used by `schema.typeCounts`. -/
inductive InferredType : Type
  | INTEGRAL
  | BOOLEAN
  | FRACTIONAL
  | STRING
  | UNKNOWN
deriving DecidableEq, Repr

/-- Legacy `numbers.variance` submessage: stored mean and sum of squared
deviations. -/
structure VarianceMessage where
  mean : ℚ
  sum : ℚ
deriving DecidableEq, Repr

/-- Legacy `numbers.longs` submessage: long-typed max and min. -/
structure LongsMessage where
  max : Int
  min : Int
deriving DecidableEq, Repr

/-- Legacy `numbers` submessage: serialized single-precision quantile sketch
plus variance and long-bound fields. -/
structure NumbersMessage where
  histogram : List Nat
  variance : VarianceMessage
  longs : LongsMessage
deriving DecidableEq, Repr

/-- Legacy `frequent_items` submessage: serialized frequent-strings sketch. -/
structure FrequentItemsMessage where
  sketch : List Nat
deriving DecidableEq, Repr

/-- Legacy `counters.null_count` wrapper. -/
structure NullCountMessage where
  value : Int
deriving DecidableEq, Repr

/-- Legacy `counters` submessage. -/
structure CountersMessage where
  count : Int
  null_count : NullCountMessage
deriving DecidableEq, Repr

/-- Legacy `schema` submessage: the per-inferred-type counter map. -/
structure SchemaMessage where
  typeCounts : List (InferredType × Int)
deriving DecidableEq, Repr

/-- The protobuf map accessor `typeCounts.get(key)`: `none` when the key is
absent from the map. -/
def SchemaMessage.typeCountsGet (s : SchemaMessage) (t : InferredType) : Option Int :=
  s.typeCounts.lookup t

/-- Legacy per-column message (`ColumnMessageV0`). -/
structure ColumnMessageV0 where
  numbers : NumbersMessage
  frequent_items : FrequentItemsMessage
  counters : CountersMessage
  schema : SchemaMessage
deriving DecidableEq, Repr

/-- Legacy dataset-profile message: one column message per column name. -/
structure DatasetProfileMessageV0 where
  columns : List (String × ColumnMessageV0)
deriving DecidableEq, Repr

/-! ## External sketch library handles

The datasketches operations used by the converter are modelled as tagging
constructors: deserialization tags the payload bytes, and the single-to-double
widening tags the single-precision sketch it was widened from. -/

/-- A deserialized single-precision KLL quantile sketch. -/
structure KllFloatsSketch where
  bytes : List Nat
deriving DecidableEq, Repr

/-- A double-precision KLL quantile sketch obtained by widening. -/
structure KllDoublesSketch where
  ofFloats : KllFloatsSketch
deriving DecidableEq, Repr

/-- `ds.kll_floats_sketch.deserialize`. -/
def kll_floats_sketch_deserialize (b : List Nat) : KllFloatsSketch := ⟨b⟩

/-- `ds.kll_floats_sketch.float_to_doubles`: widen single precision to double
precision. -/
def float_to_doubles (s : KllFloatsSketch) : KllDoublesSketch := ⟨s⟩

/-- A deserialized frequent-strings sketch. -/
structure FrequentStringsSketch where
  bytes : List Nat
deriving DecidableEq, Repr

/-- `ds.frequent_strings_sketch.deserialize`. -/
def frequent_strings_sketch_deserialize (b : List Nat) : FrequentStringsSketch := ⟨b⟩

/-! ## Metric components (as constructed by the converter) -/

/-- `IntegralComponent`: stores the value it is constructed from, which may be
absent (`None`) when built from a missing map entry. -/
structure IntegralComponent where
  value : Option Int
deriving DecidableEq, Repr

/-- `FractionalComponent`. -/
structure FractionalComponent where
  value : ℚ
deriving DecidableEq, Repr

/-- `KllComponent`: holds a double-precision quantile sketch. -/
structure KllComponent where
  value : KllDoublesSketch
deriving DecidableEq, Repr

/-- `FrequentItemsComponent`. -/
structure FrequentItemsComponent where
  value : FrequentStringsSketch
deriving DecidableEq, Repr

/-- `MaxIntegralComponent`. -/
structure MaxIntegralComponent where
  value : Int
deriving DecidableEq, Repr

/-- `MinIntegralComponent`. -/
structure MinIntegralComponent where
  value : Int
deriving DecidableEq, Repr

/-! ## v1 metrics as rebuilt by the converter -/

/-- `DistributionMetric` in its component form: quantile sketch, mean, and m2
(sum of squared deviations). -/
structure DistributionMetric where
  kll : KllComponent
  mean : FractionalComponent
  m2 : FractionalComponent
deriving DecidableEq, Repr

/-- `FrequentItemsMetric`. -/
structure FrequentItemsMetric where
  fs : FrequentItemsComponent
deriving DecidableEq, Repr

/-- `ColumnCountsMetric`: total tracked count and null count. -/
structure ColumnCountsMetric where
  n : IntegralComponent
  null : IntegralComponent
deriving DecidableEq, Repr

/-- `TypeCountersMetric`: five per-kind counters. -/
structure TypeCountersMetric where
  integral : IntegralComponent
  fractional : IntegralComponent
  boolean : IntegralComponent
  string : IntegralComponent
  object : IntegralComponent
deriving DecidableEq, Repr

/-- `IntsMetric`: running integral max / min. -/
structure IntsMetric where
  max : MaxIntegralComponent
  min : MinIntegralComponent
deriving DecidableEq, Repr

/-- The per-kind counter of a `TypeCountersMetric` corresponding to a legacy
inferred-type tag (INTEGRAL ↦ integral, BOOLEAN ↦ boolean, FRACTIONAL ↦
fractional, STRING ↦ string, UNKNOWN ↦ object). -/
def TypeCountersMetric.counterFor (m : TypeCountersMetric) : InferredType → IntegralComponent
  | .INTEGRAL => m.integral
  | .BOOLEAN => m.boolean
  | .FRACTIONAL => m.fractional
  | .STRING => m.string
  | .UNKNOWN => m.object

/-- The value wrapper a column view's metric mapping ranges over. -/
inductive MetricValue : Type
  | dist (m : DistributionMetric)
  | fi (m : FrequentItemsMetric)
  | cnt (m : ColumnCountsMetric)
  | types (m : TypeCountersMetric)
  | ints (m : IntsMetric)
deriving DecidableEq, Repr

/-- `ColumnProfileView`: an immutable mapping from metric name to metric. -/
structure ColumnProfileView where
  metrics : List (String × MetricValue)
deriving DecidableEq, Repr

/-- `DatasetProfileView`: an immutable mapping from column name to column
view. -/
structure DatasetProfileView where
  columns : List (String × ColumnProfileView)
deriving DecidableEq, Repr

/-- Modelled from the spec: the `StandardMetric` registry (not part of this
source slice) associates the members referenced by the converter with the
short metric names "counts", "distribution", "types", "cardinality",
"frequent_items" and "ints" used as metric-name slots and summary-key
prefixes. -/
inductive StandardMetric : Type
  | dist
  | fi
  | cnt
  | types
  | card
  | int
deriving DecidableEq, Repr

/-- Modelled from the spec: the short metric name of each `StandardMetric`
member. -/
def StandardMetric.name : StandardMetric → String
  | .dist => "distribution"
  | .fi => "frequent_items"
  | .cnt => "counts"
  | .types => "types"
  | .card => "cardinality"
  | .int => "ints"

/-! ## The migration converter (`whylogs/migration/converters.py`) -/

/-- `_extract_ints_metric`. -/
def _extract_ints_metric (msg : ColumnMessageV0) : IntsMetric :=
  let int_max := msg.numbers.longs.max
  let int_min := msg.numbers.longs.min
  { max := ⟨int_max⟩, min := ⟨int_min⟩ }

/-- `_extract_type_counts_metric`: each counter component is built from
`typeCounts.get(tag)`, which is absent (`none`) for a missing tag. -/
def _extract_type_counts_metric (msg : ColumnMessageV0) : TypeCountersMetric :=
  let int_count := msg.schema.typeCountsGet InferredType.INTEGRAL
  let bool_count := msg.schema.typeCountsGet InferredType.BOOLEAN
  let frac_count := msg.schema.typeCountsGet InferredType.FRACTIONAL
  let string_count := msg.schema.typeCountsGet InferredType.STRING
  let obj_count := msg.schema.typeCountsGet InferredType.UNKNOWN
  { integral := ⟨int_count⟩
    fractional := ⟨frac_count⟩
    boolean := ⟨bool_count⟩
    string := ⟨string_count⟩
    object := ⟨obj_count⟩ }

/-- `_extract_col_counts`. -/
def _extract_col_counts (msg : ColumnMessageV0) : ColumnCountsMetric :=
  { n := ⟨some msg.counters.count⟩, null := ⟨some msg.counters.null_count.value⟩ }

/-- `_extract_dist_metric`: deserialize the legacy single-precision histogram
sketch, widen it to double precision, and take mean / m2 from the legacy
variance fields. -/
def _extract_dist_metric (msg : ColumnMessageV0) : DistributionMetric :=
  let floats_sk := kll_floats_sketch_deserialize msg.numbers.histogram
  let doubles_sk := float_to_doubles floats_sk
  { kll := ⟨doubles_sk⟩
    mean := ⟨msg.numbers.variance.mean⟩
    m2 := ⟨msg.numbers.variance.sum⟩ }

/-- The per-column body of the `v0_to_v1_view` loop: one column view whose
metric mapping is built from the extracted metrics; the single
`TypeCountersMetric` built for the column fills both the `types` and the
`card` slots. -/
def v0_to_v1_view_column (col_msg : ColumnMessageV0) : ColumnProfileView :=
  let dist_metric := _extract_dist_metric col_msg
  let fi_metric : FrequentItemsMetric :=
    ⟨⟨frequent_strings_sketch_deserialize col_msg.frequent_items.sketch⟩⟩
  let count_metrics := _extract_col_counts col_msg
  let type_counters_metric := _extract_type_counts_metric col_msg
  let int_metric := _extract_ints_metric col_msg
  { metrics :=
      [(StandardMetric.dist.name, MetricValue.dist dist_metric),
       (StandardMetric.fi.name, MetricValue.fi fi_metric),
       (StandardMetric.cnt.name, MetricValue.cnt count_metrics),
       (StandardMetric.types.name, MetricValue.types type_counters_metric),
       (StandardMetric.card.name, MetricValue.types type_counters_metric),
       (StandardMetric.int.name, MetricValue.ints int_metric)] }

/-- `v0_to_v1_view`: convert every column message of a legacy dataset-profile
message into a current-format column view. -/
def v0_to_v1_view (msg : DatasetProfileMessageV0) : DatasetProfileView :=
  { columns := msg.columns.map fun p => (p.1, v0_to_v1_view_column p.2) }

end Whylogs

namespace Whylogs.Tracking

/-! ## Tracking-time metric semantics

The metric implementations (`whylogs/core/metrics`) are not part of this
source slice — only their tests are — so the update / merge semantics below
are modelled from the specification's formulas, over exact rationals. -/

/-- Modelled from the spec: `DistributionMetric` tracking state — the tracked
count (the quantile sketch is fed every numeric value, so the sketch's
`get_n` equals this count), the running mean, and the running sum of squared
deviations `m2`. The metric implementation itself is missing from the slice. -/
structure DistributionMetric where
  n : ℕ
  mean : ℚ
  m2 : ℚ
deriving DecidableEq, Repr

/-- The empty distribution metric. -/
def DistributionMetric.zero : DistributionMetric := ⟨0, 0, 0⟩

/-- Modelled from the spec: the Welford-style single-value update — for a new
value `x` with prior count `n` and prior mean `μ`: `δ = x − μ`,
`μ' = μ + δ/(n+1)`, `m2' = m2 + δ·(x − μ')`. -/
def DistributionMetric.update (d : DistributionMetric) (x : ℚ) : DistributionMetric :=
  let δ := x - d.mean
  let mean' := d.mean + δ / (d.n + 1)
  let m2' := d.m2 + δ * (x - mean')
  ⟨d.n + 1, mean', m2'⟩

/-- Columnar update: feed every value of the batch, in order. -/
def DistributionMetric.columnar_update (d : DistributionMetric) (xs : List ℚ) :
    DistributionMetric :=
  xs.foldl DistributionMetric.update d

/-- Modelled from the spec: merge of two distribution metrics — counts add,
and mean / m2 combine via the parallel-variance merge formula; an empty side
passes the other side through. -/
def DistributionMetric.merge (a b : DistributionMetric) : DistributionMetric :=
  if a.n = 0 then b
  else if b.n = 0 then a
  else
    let n : ℕ := a.n + b.n
    let δ : ℚ := b.mean - a.mean
    let mean' : ℚ := a.mean + δ * b.n / n
    let m2' : ℚ := a.m2 + b.m2 + δ * δ * a.n * b.n / n
    ⟨n, mean', m2'⟩

/-- Modelled from the spec: the variance read from the state, `m2 / (n − 1)`
for `n > 1`, else zero; the reported standard deviation is its square root
and is therefore determined by the state. -/
def DistributionMetric.variance (d : DistributionMetric) : ℚ :=
  if 1 < d.n then d.m2 / ((d.n : ℚ) - 1) else 0

/-- Modelled from the spec: a sub-metric held by a CompoundMetric is either a
concrete metric (the distribution metric exercised by the compound-metric
tests) or itself a compound metric — which construction must reject, so valid
compound metrics only ever hold the first form. -/
inductive Metric : Type
  | dist (d : DistributionMetric)
  | compound (ns : String) (subs : List (String × DistributionMetric))
deriving DecidableEq, Repr

/-- Whether a sub-metric is itself a CompoundMetric. -/
def Metric.isCompound : Metric → Bool
  | .compound _ _ => true
  | .dist _ => false

/-- Whether an identifier contains one of the reserved summary-path separator
characters. -/
def containsReservedChar (s : String) : Bool :=
  s.data.any fun c => c == ':' || c == '/'

/-- `CompoundMetric`: a namespace identifier (`namespace` in the source)
plus a mapping from sub-metric name to sub-metric. -/
structure CompoundMetric where
  ns : String
  submetrics : List (String × Metric)
deriving DecidableEq, Repr

/-- Modelled from the spec: CompoundMetric construction fails with an
invalid-argument error when the namespace or any sub-metric name contains a
reserved separator character, or when any sub-metric is itself a
CompoundMetric; otherwise it succeeds with the given state. -/
def CompoundMetric.create (ns : String) (subs : List (String × Metric)) :
    Except String CompoundMetric :=
  if containsReservedChar ns then
    Except.error "invalid namespace"
  else if subs.any fun p => containsReservedChar p.1 then
    Except.error "invalid submetric name"
  else if subs.any fun p => p.2.isCompound then
    Except.error "CompoundMetric cannot contain a CompoundMetric"
  else
    Except.ok ⟨ns, subs⟩

/-- Fan a columnar update out to a sub-metric. -/
def Metric.columnar_update (m : Metric) (xs : List ℚ) : Metric :=
  match m with
  | .dist d => .dist (d.columnar_update xs)
  | .compound ns subs => .compound ns (subs.map fun p => (p.1, p.2.columnar_update xs))

/-- Modelled from the spec: `CompoundMetric.columnar_update` fans the same
preprocessed batch out to every sub-metric. -/
def CompoundMetric.columnar_update (c : CompoundMetric) (xs : List ℚ) : CompoundMetric :=
  ⟨c.ns, c.submetrics.map fun p => (p.1, p.2.columnar_update xs)⟩

/-- Pairwise sub-metric merge; merging different metric kinds is a
type-mismatch error (sub-metrics of a valid CompoundMetric are never
compound, since nesting is rejected at construction). -/
def Metric.merge : Metric → Metric → Except String Metric
  | .dist a, .dist b => Except.ok (.dist (a.merge b))
  | _, _ => Except.error "metric type mismatch"

/-- The sub-metric names of a sub-metric mapping. -/
def namesOf (subs : List (String × Metric)) : List String :=
  subs.map Prod.fst

/-- Modelled from the spec: `CompoundMetric.merge` requires identical
sub-metric name sets (a mismatch is an error) and merges sub-metrics pairwise
by name. -/
def CompoundMetric.merge (a b : CompoundMetric) : Except String CompoundMetric :=
  if (namesOf a.submetrics).toFinset = (namesOf b.submetrics).toFinset then
    match a.submetrics.mapM fun p =>
        match b.submetrics.lookup p.1 with
        | some m2 => (p.2.merge m2).map fun m => (p.1, m)
        | none => Except.error "missing submetric" with
    | Except.ok merged => Except.ok ⟨a.ns, merged⟩
    | Except.error e => Except.error e
  else
    Except.error "submetric name sets differ"

/-- A compound metric with the given namespace whose sub-metric mapping sends
each of the given names to a zero distribution metric, then updated over a
batch — the shape built by the compound-metric tests. -/
def buildCompound (ns : String) (names : List String) (xs : List ℚ) : CompoundMetric :=
  CompoundMetric.columnar_update ⟨ns, names.map fun nm => (nm, Metric.dist DistributionMetric.zero)⟩ xs

/-! ## Serialized metric messages -/

/-- The serialized form of a distribution metric: its component values,
sufficient for exact round-trip. -/
structure DistributionMessage where
  n : ℕ
  mean : ℚ
  m2 : ℚ
deriving DecidableEq, Repr

/-- Modelled from the spec: a sub-metric's self-describing serialized form
(kind tag plus payload). -/
inductive MetricMessage : Type
  | dist (m : DistributionMessage)
  | compound (ns : String) (entries : List (String × DistributionMessage))
deriving DecidableEq, Repr

/-- Serialize a distribution metric. -/
def DistributionMetric.to_protobuf (d : DistributionMetric) : DistributionMessage :=
  ⟨d.n, d.mean, d.m2⟩

/-- Deserialize a distribution metric. -/
def DistributionMetric.from_protobuf (m : DistributionMessage) : DistributionMetric :=
  ⟨m.n, m.mean, m.m2⟩

/-- Serialize a sub-metric. -/
def Metric.to_protobuf : Metric → MetricMessage
  | .dist d => .dist d.to_protobuf
  | .compound ns subs => .compound ns (subs.map fun p => (p.1, p.2.to_protobuf))

/-- Deserialize a sub-metric. -/
def Metric.from_protobuf : MetricMessage → Metric
  | .dist m => .dist (DistributionMetric.from_protobuf m)
  | .compound ns entries =>
      .compound ns (entries.map fun p => (p.1, DistributionMetric.from_protobuf p.2))

/-- The registered kind tag of a sub-metric. -/
def Metric.kindTag : Metric → String
  | .dist _ => "distribution"
  | .compound ns _ => ns

/-- Modelled from the spec: a CompoundMetric serializes as an ordered list of
(sub-metric name, sub-metric kind tag, sub-metric payload) entries. -/
structure CompoundMessage where
  entries : List (String × String × MetricMessage)
deriving DecidableEq, Repr

/-- `CompoundMetric.to_protobuf`: wrap each sub-metric's serialized bytes
tagged with its registered name. -/
def CompoundMetric.to_protobuf (c : CompoundMetric) : CompoundMessage :=
  ⟨c.submetrics.map fun p => (p.1, p.2.kindTag, p.2.to_protobuf)⟩

/-- `CompoundMetric.from_protobuf`: a classmethod, so the namespace comes from
the receiving class; each entry's payload is deserialized under its tagged
name. -/
def CompoundMetric.from_protobuf (ns : String) (msg : CompoundMessage) : CompoundMetric :=
  ⟨ns, msg.entries.map fun p => (p.1, Metric.from_protobuf p.2.2)⟩

end Whylogs.Tracking

namespace Whylogs.Udf

/-! ## UDF schema extension, validators and resolvers

The UDF-schema implementation (`whylogs/experimental/core/udf_schema.py`,
`validators.py`, `whylogs/core/resolvers.py`) is not part of this source
slice — only its tests are — so the models below follow the specification's
descriptions. -/

/-- A tracked column's count metric state: total tracked count `n` and null
count. -/
structure ColumnCounts where
  n : ℕ
  null : ℕ
deriving DecidableEq, Repr

/-- Track one column's worth of per-row values, where `none` is a
null/missing entry: `n` counts every row, `null` counts the missing ones. -/
def trackColumn (vals : List (Option ℚ)) : ColumnCounts :=
  ⟨vals.length, vals.countP fun v => v.isNone⟩

/-- The non-null tracked count of a column. -/
def ColumnCounts.nonNull (c : ColumnCounts) : ℕ := c.n - c.null

/-- Modelled from the spec: per-row evaluation of a dataset UDF over a
tracked batch — a row for which the UDF raises is recorded as a null/missing
entry of the derived column instead of aborting the batch. -/
def applyUdfRows (udf : ℚ → Except String ℚ) (rows : List ℚ) : List (Option ℚ) :=
  rows.map fun r => (udf r).toOption

/-- Modelled from the spec: a registered validator record — primary column
name, condition name, and the condition predicate. -/
structure ValidatorRecord where
  column_name : String
  condition_name : String
  condition : ℚ → Bool

/-- Modelled from the spec: registering a validator condition — when a record
with the same primary column and condition name already exists, the new
registration replaces it (last registration wins); otherwise it is appended. -/
def registerValidator (reg : List ValidatorRecord) (v : ValidatorRecord) :
    List ValidatorRecord :=
  if reg.any fun r => r.column_name == v.column_name && r.condition_name == v.condition_name then
    reg.map fun r =>
      if r.column_name == v.column_name && r.condition_name == v.condition_name then v else r
  else
    reg ++ [v]

/-- The validator entries a built schema carries for one column. -/
def schemaValidators (reg : List ValidatorRecord) (col : String) : List ValidatorRecord :=
  reg.filter fun r => r.column_name == col

/-- The metric kinds named by the standard registry. -/
inductive MetricKind : Type
  | counts
  | distribution
  | types
  | cardinality
  | frequent_items
  | ints
deriving DecidableEq, Repr

/-- `MetricSpec`: names one metric to instantiate. -/
structure MetricSpec where
  metric : MetricKind
deriving DecidableEq, Repr

/-- The column element types a resolver filters on. -/
inductive ColumnType : Type
  | Integral
  | Fractional
  | StringType
  | ObjectType
deriving DecidableEq, Repr

/-- `ResolverSpec`: for columns of one type, instantiate the listed metrics. -/
structure ResolverSpec where
  column_type : ColumnType
  metrics : List MetricSpec
deriving DecidableEq, Repr

/-- Modelled from the spec: the standard resolver — Integral / Fractional
columns get counts, distribution, types, cardinality and ints; String /
Object columns get counts, types, cardinality and frequent items. -/
def STANDARD_RESOLVER : List ResolverSpec :=
  [⟨.Integral, [⟨.counts⟩, ⟨.distribution⟩, ⟨.types⟩, ⟨.cardinality⟩, ⟨.ints⟩]⟩,
   ⟨.Fractional, [⟨.counts⟩, ⟨.distribution⟩, ⟨.types⟩, ⟨.cardinality⟩, ⟨.ints⟩]⟩,
   ⟨.StringType, [⟨.counts⟩, ⟨.types⟩, ⟨.cardinality⟩, ⟨.frequent_items⟩]⟩,
   ⟨.ObjectType, [⟨.counts⟩, ⟨.types⟩, ⟨.cardinality⟩, ⟨.frequent_items⟩]⟩]

/-- The union of the metrics of every resolver spec whose type filter matches
the column's type. -/
def matchingMetrics (specs : List ResolverSpec) (t : ColumnType) : Finset MetricKind :=
  (specs.filter fun s => s.column_type == t).foldr
    (fun s acc => (s.metrics.map MetricSpec.metric).toFinset ∪ acc) ∅

/-- Modelled from the spec: resolution for a newly seen column — the union of
the metrics of every matching resolver spec, minus the metrics named in the
column's anti-metrics list. -/
def resolveMetrics (specs : List ResolverSpec) (t : ColumnType)
    (anti : List MetricKind) : Finset MetricKind :=
  matchingMetrics specs t \ anti.toFinset

/-- A row mapping / column set: column name to value. -/
abbrev RowData : Type := List (String × ℚ)

/-- The column names of a row mapping. -/
def RowData.keys (d : RowData) : List String :=
  d.map Prod.fst

/-- Modelled from the spec: `UdfSchema.apply_udfs` returns the full column
set — the original columns plus every derived column — as a new mapping; the
caller's input mapping is not part of the output state. -/
def apply_udfs (udfs : List (String × (RowData → ℚ))) (data : RowData) : RowData :=
  data ++ udfs.map fun u => (u.1, u.2 data)

/-- The profile view produced by a log call, reduced to the column names it
carries. -/
structure ProfileView where
  columnNames : List String
deriving DecidableEq, Repr

/-- Modelled from the spec: `why.log` under a UDF schema — the combined
column set (input plus derived) is built as a new mapping and tracked into
the view, and the caller's data, threaded explicitly to model the mutable
input reference, is returned unchanged alongside the view. -/
def why_log (udfs : List (String × (RowData → ℚ))) (data : RowData) :
    RowData × ProfileView :=
  (data, ⟨(apply_udfs udfs data).keys⟩)

end Whylogs.Udf

namespace Whylogs

/-! ## Concrete inputs used to instantiate the theorems -/

/-- A concrete legacy column message: its `typeCounts` map carries only the
INTEGRAL tag. -/
def exampleColMsg : ColumnMessageV0 :=
  { numbers :=
      { histogram := [1, 2, 3]
        variance := { mean := 3, sum := 5 }
        longs := { max := 9, min := 1 } }
    frequent_items := { sketch := [4, 5] }
    counters := { count := 4, null_count := { value := 1 } }
    schema := { typeCounts := [(InferredType.INTEGRAL, 4)] } }

/-- A concrete legacy dataset-profile message with a single column. -/
def exampleMsgV0 : DatasetProfileMessageV0 :=
  ⟨[("col1", exampleColMsg)]⟩

/-- A concrete UDF that raises for values below 3 and succeeds otherwise. -/
def exampleUdf (r : ℚ) : Except String ℚ :=
  if r < 3 then Except.error "kaboom" else Except.ok r

end Whylogs

namespace Whylogs

/-! ## Helper lemmas -/

/-- Looking a key up in a value-mapped association list with duplicate-free
keys finds the image of the associated value. -/
theorem lookup_map_value {κ α β : Type} [DecidableEq κ]
    {l : List (κ × α)} (g : α → β) {k : κ} {a : α}
    (hmem : (k, a) ∈ l) (hnd : (l.map Prod.fst).Nodup) :
    (l.map fun p => (p.1, g p.2)).lookup k = some (g a) := by
  induction l with
  | nil => cases hmem
  | cons hd tl ih =>
    have hnd1 : hd.1 ∉ tl.map Prod.fst := (List.nodup_cons.mp hnd).1
    have hnd2 : (tl.map Prod.fst).Nodup := (List.nodup_cons.mp hnd).2
    rcases List.mem_cons.mp hmem with heq | htl
    · cases heq
      simp [List.lookup]
    · have hk : (k == hd.1) = false := by
        apply beq_eq_false_iff_ne.mpr
        intro h
        exact hnd1 (h ▸ List.mem_map_of_mem Prod.fst htl)
      simp only [List.map_cons, List.lookup, hk]
      exact ih htl hnd2

/-- Looking a name up in a constant-valued association list built over a name
list containing it yields that constant. -/
theorem lookup_const_map {β : Type} (names : List String) (c : β) {nm : String}
    (h : nm ∈ names) :
    (names.map fun n => (n, c)).lookup nm = some c := by
  induction names with
  | nil => cases h
  | cons hd tl ih =>
    by_cases hk : nm = hd
    · subst hk
      simp [List.lookup]
    · have hb : (nm == hd) = false := beq_eq_false_iff_ne.mpr hk
      have htl : nm ∈ tl := by
        rcases List.mem_cons.mp h with heq | htl
        · exact absurd heq hk
        · exact htl
      simp only [List.map_cons, List.lookup, hb]
      exact ih htl

/-- A `mapM` over `Except` whose body succeeds pointwise succeeds with the
pointwise map. -/
theorem mapM_ok_of_forall {α β : Type} (l : List α) (f : α → Except String β)
    (g : α → β) (h : ∀ x ∈ l, f x = Except.ok (g x)) :
    l.mapM f = Except.ok (l.map g) := by
  induction l with
  | nil => rfl
  | cons hd tl ih =>
    rw [List.mapM_cons, h hd (List.mem_cons_self hd tl),
      ih fun x hx => h x (List.mem_cons_of_mem hd hx)]
    rfl

/-- Successes and failures of a boolean predicate partition a list's length. -/
theorem countP_add_countP_not {α : Type} (p : α → Bool) (l : List α) :
    l.countP p + l.countP (fun a => !(p a)) = l.length := by
  induction l with
  | nil => rfl
  | cons hd tl ih =>
    by_cases h : p hd = true <;> simp [List.countP_cons, h, ← ih] <;> omega

/-- Mapping a function that is the identity on every member is the identity. -/
theorem map_eq_self {α : Type} (l : List α) (f : α → α) (h : ∀ x ∈ l, f x = x) :
    l.map f = l := by
  induction l with
  | nil => rfl
  | cons hd tl ih =>
    rw [List.map_cons, h hd (List.mem_cons_self hd tl),
      ih fun x hx => h x (List.mem_cons_of_mem hd hx)]

end Whylogs

namespace Whylogs.Tracking

/-- The names of a constant-valued sub-metric mapping are the name list. -/
theorem namesOf_const_map (names : List String) (c : Metric) :
    namesOf (names.map fun nm => (nm, c)) = names := by
  simp only [namesOf, List.map_map]
  exact map_eq_self names _ fun x _ => rfl

/-- Updating the compound metric built over zero sub-metrics updates every
sub-metric to the directly-updated distribution metric. -/
theorem buildCompound_eq (ns : String) (names : List String) (xs : List ℚ) :
    buildCompound ns names xs
      = ⟨ns, names.map fun nm =>
          (nm, Metric.dist (DistributionMetric.zero.columnar_update xs))⟩ := by
  simp [buildCompound, CompoundMetric.columnar_update, List.map_map, Metric.columnar_update]

/-- Merging two compound metrics whose sub-metric mappings send the same name
list to constant distribution metrics merges the constants pairwise. -/
theorem merge_const_maps (nsa nsb : String) (names : List String)
    (d1 d2 : DistributionMetric) :
    CompoundMetric.merge ⟨nsa, names.map fun nm => (nm, Metric.dist d1)⟩
        ⟨nsb, names.map fun nm => (nm, Metric.dist d2)⟩
      = Except.ok ⟨nsa, names.map fun nm => (nm, Metric.dist (d1.merge d2))⟩ := by
  unfold CompoundMetric.merge
  rw [namesOf_const_map, namesOf_const_map, if_pos rfl]
  rw [mapM_ok_of_forall _ _ (fun p => (p.1, Metric.dist (d1.merge d2)))
    (by
      intro p hp
      rcases List.mem_map.mp hp with ⟨nm, hnm, rfl⟩
      rw [lookup_const_map names (Metric.dist d2) hnm]
      rfl)]
  show Except.ok (⟨nsa, List.map (fun p => (p.1, Metric.dist (d1.merge d2)))
        (List.map (fun nm => (nm, Metric.dist d1)) names)⟩ : CompoundMetric)
      = Except.ok (⟨nsa, List.map (fun nm => (nm, Metric.dist (d1.merge d2))) names⟩ : CompoundMetric)
  rw [List.map_map]
  rfl

/-- Round trip of a sub-metric through its serialized message form. -/
theorem metric_roundtrip (m : Metric) :
    Metric.from_protobuf m.to_protobuf = m := by
  cases m with
  | dist d => rfl
  | compound ns subs =>
    simp only [Metric.to_protobuf, Metric.from_protobuf, List.map_map]
    congr 1
    exact map_eq_self subs _ fun p _ => rfl

/-- Round trip of a whole compound metric through its serialized form. -/
theorem compound_roundtrip_eq (c : CompoundMetric) :
    CompoundMetric.from_protobuf c.ns c.to_protobuf = c := by
  cases c with
  | mk ns subs =>
    simp only [CompoundMetric.from_protobuf, CompoundMetric.to_protobuf, List.map_map]
    congr 1
    refine map_eq_self subs _ fun p _ => ?_
    show (p.1, Metric.from_protobuf p.2.to_protobuf) = p
    rw [metric_roundtrip]

end Whylogs.Tracking

namespace Whylogs

/-! ## Claims about the migration converter -/

/-- C4: for every column message of a legacy v0 profile (whose column names,
being a map's keys, are duplicate-free), `v0_to_v1_view` builds one
`TypeCountersMetric` whose five counters come from the legacy `typeCounts`
map keyed by the INTEGRAL, BOOLEAN, FRACTIONAL, STRING and UNKNOWN tags, and
attaches that same metric under both the "types" and the "cardinality"
metric-name slots of the resulting column view. -/
theorem v0_types_and_cardinality_share_type_counters
    (msg : DatasetProfileMessageV0) (col_name : String) (col_msg : ColumnMessageV0)
    (hmem : (col_name, col_msg) ∈ msg.columns)
    (hnd : (msg.columns.map Prod.fst).Nodup) :
    ∃ cv, (v0_to_v1_view msg).columns.lookup col_name = some cv ∧
      cv.metrics.lookup "types"
        = some (MetricValue.types (_extract_type_counts_metric col_msg)) ∧
      cv.metrics.lookup "cardinality"
        = some (MetricValue.types (_extract_type_counts_metric col_msg)) ∧
      (_extract_type_counts_metric col_msg).integral.value
        = col_msg.schema.typeCountsGet InferredType.INTEGRAL ∧
      (_extract_type_counts_metric col_msg).boolean.value
        = col_msg.schema.typeCountsGet InferredType.BOOLEAN ∧
      (_extract_type_counts_metric col_msg).fractional.value
        = col_msg.schema.typeCountsGet InferredType.FRACTIONAL ∧
      (_extract_type_counts_metric col_msg).string.value
        = col_msg.schema.typeCountsGet InferredType.STRING ∧
      (_extract_type_counts_metric col_msg).object.value
        = col_msg.schema.typeCountsGet InferredType.UNKNOWN := by
  refine ⟨v0_to_v1_view_column col_msg, ?_, rfl, rfl, rfl, rfl, rfl, rfl, rfl⟩
  exact lookup_map_value v0_to_v1_view_column hmem hnd

/-- C4 witness: the theorem instantiated at a concrete one-column legacy
message. -/
theorem v0_types_and_cardinality_share_type_counters_witness :
    ("col1", exampleColMsg) ∈ exampleMsgV0.columns ∧
    (exampleMsgV0.columns.map Prod.fst).Nodup ∧
    ∃ cv, (v0_to_v1_view exampleMsgV0).columns.lookup "col1" = some cv ∧
      cv.metrics.lookup "types"
        = some (MetricValue.types (_extract_type_counts_metric exampleColMsg)) ∧
      cv.metrics.lookup "cardinality"
        = some (MetricValue.types (_extract_type_counts_metric exampleColMsg)) ∧
      (_extract_type_counts_metric exampleColMsg).integral.value
        = exampleColMsg.schema.typeCountsGet InferredType.INTEGRAL ∧
      (_extract_type_counts_metric exampleColMsg).boolean.value
        = exampleColMsg.schema.typeCountsGet InferredType.BOOLEAN ∧
      (_extract_type_counts_metric exampleColMsg).fractional.value
        = exampleColMsg.schema.typeCountsGet InferredType.FRACTIONAL ∧
      (_extract_type_counts_metric exampleColMsg).string.value
        = exampleColMsg.schema.typeCountsGet InferredType.STRING ∧
      (_extract_type_counts_metric exampleColMsg).object.value
        = exampleColMsg.schema.typeCountsGet InferredType.UNKNOWN := by
  have h1 : ("col1", exampleColMsg) ∈ exampleMsgV0.columns := by
    simp [exampleMsgV0]
  have h2 : (exampleMsgV0.columns.map Prod.fst).Nodup := by
    simp [exampleMsgV0]
  exact ⟨h1, h2,
    v0_types_and_cardinality_share_type_counters exampleMsgV0 "col1" exampleColMsg h1 h2⟩

/-- C5: for every column message of a legacy v0 profile (whose column names
are duplicate-free), `v0_to_v1_view` rebuilds that column's distribution
metric with its quantile sketch obtained by deserializing `numbers.histogram`
and widening it from single to double precision, its mean component equal to
the legacy `numbers.variance.mean`, and its m2 component equal to the legacy
`numbers.variance.sum`. -/
theorem v0_distribution_from_legacy_fields
    (msg : DatasetProfileMessageV0) (col_name : String) (col_msg : ColumnMessageV0)
    (hmem : (col_name, col_msg) ∈ msg.columns)
    (hnd : (msg.columns.map Prod.fst).Nodup) :
    ∃ cv, (v0_to_v1_view msg).columns.lookup col_name = some cv ∧
      cv.metrics.lookup "distribution"
        = some (MetricValue.dist
            { kll := ⟨float_to_doubles
                (kll_floats_sketch_deserialize col_msg.numbers.histogram)⟩
              mean := ⟨col_msg.numbers.variance.mean⟩
              m2 := ⟨col_msg.numbers.variance.sum⟩ }) := by
  refine ⟨v0_to_v1_view_column col_msg, ?_, rfl⟩
  exact lookup_map_value v0_to_v1_view_column hmem hnd

/-- C5 witness: the theorem instantiated at a concrete one-column legacy
message. -/
theorem v0_distribution_from_legacy_fields_witness :
    ("col1", exampleColMsg) ∈ exampleMsgV0.columns ∧
    (exampleMsgV0.columns.map Prod.fst).Nodup ∧
    ∃ cv, (v0_to_v1_view exampleMsgV0).columns.lookup "col1" = some cv ∧
      cv.metrics.lookup "distribution"
        = some (MetricValue.dist
            { kll := ⟨float_to_doubles
                (kll_floats_sketch_deserialize exampleColMsg.numbers.histogram)⟩
              mean := ⟨exampleColMsg.numbers.variance.mean⟩
              m2 := ⟨exampleColMsg.numbers.variance.sum⟩ }) := by
  have h1 : ("col1", exampleColMsg) ∈ exampleMsgV0.columns := by
    simp [exampleMsgV0]
  have h2 : (exampleMsgV0.columns.map Prod.fst).Nodup := by
    simp [exampleMsgV0]
  exact ⟨h1, h2,
    v0_distribution_from_legacy_fields exampleMsgV0 "col1" exampleColMsg h1 h2⟩

/-- C9: when a legacy column message's `typeCounts` map lacks an entry for
one of the five inferred-type tags, the converter builds the corresponding
`TypeCountersMetric` counter component from the absent (`none`) value rather
than from zero. -/
theorem type_counts_missing_tag_gives_none (msg : ColumnMessageV0)
    (t : InferredType) (h : msg.schema.typeCountsGet t = none) :
    ((_extract_type_counts_metric msg).counterFor t).value = none ∧
      ((_extract_type_counts_metric msg).counterFor t).value ≠ some 0 := by
  cases t <;>
    refine ⟨?_, ?_⟩ <;>
    simp [_extract_type_counts_metric, TypeCountersMetric.counterFor, h]

/-- C9 witness: the concrete column message's map lacks the BOOLEAN tag, and
the boolean counter component holds `none`. -/
theorem type_counts_missing_tag_gives_none_witness :
    exampleColMsg.schema.typeCountsGet InferredType.BOOLEAN = none ∧
    (((_extract_type_counts_metric exampleColMsg).counterFor InferredType.BOOLEAN).value = none ∧
      ((_extract_type_counts_metric exampleColMsg).counterFor InferredType.BOOLEAN).value ≠ some 0) := by
  have h : exampleColMsg.schema.typeCountsGet InferredType.BOOLEAN = none := rfl
  exact ⟨h, type_counts_missing_tag_gives_none exampleColMsg InferredType.BOOLEAN h⟩

end Whylogs

namespace Whylogs.Tracking

/-! ## Claims about the compound metric -/

/-- C1: two compound metrics built from the same sub-metric kinds over the
same sub-metric names and updated over disjoint value sets merge successfully,
and for every sub-metric name the merged sub-metric is exactly the direct
merge of the two corresponding distribution metrics — the same state (tracked
count, mean, and m2, from which the standard deviation is derived). -/
theorem compound_merge_matches_direct_merge (ns : String) (names : List String)
    (xs ys : List ℚ) (hdisj : ∀ v ∈ xs, v ∉ ys) :
    ∃ m, (buildCompound ns names xs).merge (buildCompound ns names ys) = Except.ok m ∧
      m.ns = ns ∧
      ∀ nm ∈ names,
        m.submetrics.lookup nm
          = some (Metric.dist
              ((DistributionMetric.zero.columnar_update xs).merge
                (DistributionMetric.zero.columnar_update ys))) := by
  refine ⟨⟨ns, names.map fun nm =>
      (nm, Metric.dist ((DistributionMetric.zero.columnar_update xs).merge
        (DistributionMetric.zero.columnar_update ys)))⟩, ?_, rfl, ?_⟩
  · rw [buildCompound_eq, buildCompound_eq, merge_const_maps]
  · intro nm hnm
    exact lookup_const_map names _ hnm

/-- C1 witness: the theorem instantiated at the two-sub-metric compound of the
tests, updated over the disjoint batches [10, 20, 30] and [40, 50, 60]. -/
theorem compound_merge_matches_direct_merge_witness :
    (∀ v ∈ ([10, 20, 30] : List ℚ), v ∉ ([40, 50, 60] : List ℚ)) ∧
    ∃ m, (buildCompound "good" ["Metric1", "Metric2"] [10, 20, 30]).merge
        (buildCompound "good" ["Metric1", "Metric2"] [40, 50, 60]) = Except.ok m ∧
      m.ns = "good" ∧
      ∀ nm ∈ ["Metric1", "Metric2"],
        m.submetrics.lookup nm
          = some (Metric.dist
              ((DistributionMetric.zero.columnar_update [10, 20, 30]).merge
                (DistributionMetric.zero.columnar_update [40, 50, 60]))) := by
  have hd : ∀ v ∈ ([10, 20, 30] : List ℚ), v ∉ ([40, 50, 60] : List ℚ) := by decide
  exact ⟨hd, compound_merge_matches_direct_merge "good" ["Metric1", "Metric2"] _ _ hd⟩

/-- C2: constructing a compound metric fails with an invalid-argument error
exactly when its namespace contains a reserved character, some sub-metric
name contains a reserved character, or some sub-metric is itself a compound
metric; when none of these hold, construction succeeds with the given
state. -/
theorem compound_metric_create_error_iff (ns : String) (subs : List (String × Metric)) :
    ((∃ e, CompoundMetric.create ns subs = Except.error e) ↔
      (':' ∈ ns.data ∨ '/' ∈ ns.data ∨
        (∃ p ∈ subs, ':' ∈ p.1.data ∨ '/' ∈ p.1.data) ∨
        (∃ p ∈ subs, p.2.isCompound = true))) ∧
    (¬ (':' ∈ ns.data ∨ '/' ∈ ns.data ∨
        (∃ p ∈ subs, ':' ∈ p.1.data ∨ '/' ∈ p.1.data) ∨
        (∃ p ∈ subs, p.2.isCompound = true)) →
      CompoundMetric.create ns subs = Except.ok ⟨ns, subs⟩) := by
  have hchar : ∀ s : String, containsReservedChar s = true ↔
      (':' ∈ s.data ∨ '/' ∈ s.data) := by
    intro s
    simp only [containsReservedChar, List.any_eq_true, Bool.or_eq_true, beq_iff_eq]
    constructor
    · rintro ⟨c, hc, rfl | rfl⟩
      · exact Or.inl hc
      · exact Or.inr hc
    · rintro (h | h)
      · exact ⟨_, h, Or.inl rfl⟩
      · exact ⟨_, h, Or.inr rfl⟩
  have hsubname : (subs.any fun p => containsReservedChar p.1) = true ↔
      (∃ p ∈ subs, ':' ∈ p.1.data ∨ '/' ∈ p.1.data) := by
    simp only [List.any_eq_true]
    constructor
    · rintro ⟨p, hp, h⟩
      exact ⟨p, hp, (hchar p.1).mp h⟩
    · rintro ⟨p, hp, h⟩
      exact ⟨p, hp, (hchar p.1).mpr h⟩
  have hnest : (subs.any fun p => p.2.isCompound) = true ↔
      (∃ p ∈ subs, p.2.isCompound = true) := by
    simp [List.any_eq_true]
  unfold CompoundMetric.create
  split_ifs with h1 h2 h3
  · have hr : ':' ∈ ns.data ∨ '/' ∈ ns.data ∨
        (∃ p ∈ subs, ':' ∈ p.1.data ∨ '/' ∈ p.1.data) ∨
        (∃ p ∈ subs, p.2.isCompound = true) := by
      rcases (hchar ns).mp h1 with h | h
      · exact Or.inl h
      · exact Or.inr (Or.inl h)
    exact ⟨⟨fun _ => hr, fun _ => ⟨_, rfl⟩⟩, fun hn => absurd hr hn⟩
  · have hr : ':' ∈ ns.data ∨ '/' ∈ ns.data ∨
        (∃ p ∈ subs, ':' ∈ p.1.data ∨ '/' ∈ p.1.data) ∨
        (∃ p ∈ subs, p.2.isCompound = true) :=
      Or.inr (Or.inr (Or.inl (hsubname.mp h2)))
    exact ⟨⟨fun _ => hr, fun _ => ⟨_, rfl⟩⟩, fun hn => absurd hr hn⟩
  · have hr : ':' ∈ ns.data ∨ '/' ∈ ns.data ∨
        (∃ p ∈ subs, ':' ∈ p.1.data ∨ '/' ∈ p.1.data) ∨
        (∃ p ∈ subs, p.2.isCompound = true) :=
      Or.inr (Or.inr (Or.inr (hnest.mp h3)))
    exact ⟨⟨fun _ => hr, fun _ => ⟨_, rfl⟩⟩, fun hn => absurd hr hn⟩
  · have hr : ¬ (':' ∈ ns.data ∨ '/' ∈ ns.data ∨
        (∃ p ∈ subs, ':' ∈ p.1.data ∨ '/' ∈ p.1.data) ∨
        (∃ p ∈ subs, p.2.isCompound = true)) := by
      rintro (h | h | h | h)
      · exact h1 ((hchar ns).mpr (Or.inl h))
      · exact h1 ((hchar ns).mpr (Or.inr h))
      · exact h2 (hsubname.mpr h)
      · exact h3 (hnest.mpr h)
    refine ⟨⟨fun he => ?_, fun h => absurd h hr⟩, fun _ => rfl⟩
    obtain ⟨e, he⟩ := he
    cases he

/-- C2 witness: a reserved namespace fails, a clean construction succeeds. -/
theorem compound_metric_create_error_iff_witness :
    (∃ e, CompoundMetric.create "bad:namespace" [] = Except.error e) ∧
    CompoundMetric.create "good" [("m1", Metric.dist DistributionMetric.zero)]
      = Except.ok ⟨"good", [("m1", Metric.dist DistributionMetric.zero)]⟩ := by
  constructor
  · exact (compound_metric_create_error_iff "bad:namespace" []).1.mpr
      (Or.inl (by decide))
  · exact (compound_metric_create_error_iff "good"
      [("m1", Metric.dist DistributionMetric.zero)]).2 (by decide)

/-- C6: serializing a compound metric (in particular one that has been
updated with data) to its message form and deserializing it reproduces the
same namespace, exactly the same sub-metric names, and the same sub-metric
state under every name — hence the same tracked count and mean. -/
theorem compound_serialization_roundtrip (c : CompoundMetric) :
    (CompoundMetric.from_protobuf c.ns c.to_protobuf).ns = c.ns ∧
    namesOf (CompoundMetric.from_protobuf c.ns c.to_protobuf).submetrics
      = namesOf c.submetrics ∧
    ∀ nm, (CompoundMetric.from_protobuf c.ns c.to_protobuf).submetrics.lookup nm
      = c.submetrics.lookup nm := by
  rw [compound_roundtrip_eq]
  exact ⟨rfl, rfl, fun _ => rfl⟩

end Whylogs.Tracking

namespace Whylogs.Udf

/-! ## Claims about the UDF schema extension -/

/-- A boolean predicate false on every member makes `any` false. -/
theorem any_eq_false_of_false {α : Type} (l : List α) (p : α → Bool)
    (h : ∀ x ∈ l, p x = false) : l.any p = false := by
  induction l with
  | nil => rfl
  | cons hd tl ih =>
    simp [List.any_cons, h hd (List.mem_cons_self hd tl),
      ih fun x hx => h x (List.mem_cons_of_mem hd hx)]

/-- A boolean predicate false on every member filters to the empty list. -/
theorem filter_eq_nil_of_false {α : Type} (l : List α) (p : α → Bool)
    (h : ∀ x ∈ l, p x = false) : l.filter p = [] := by
  induction l with
  | nil => rfl
  | cons hd tl ih =>
    simp [List.filter_cons, h hd (List.mem_cons_self hd tl),
      ih fun x hx => h x (List.mem_cons_of_mem hd hx)]

/-- C3: over a tracked batch in which a dataset UDF raises for some rows and
succeeds for others, the derived column is tracked over every row, its null
count equals the number of failing rows, and its non-null tracked count
equals the number of succeeding rows, while any sibling column computed from
the same rows is fully tracked with zero null count. -/
theorem udf_failure_null_counts (udf : ℚ → Except String ℚ) (g : ℚ → ℚ)
    (rows : List ℚ)
    (hfail : ∃ r ∈ rows, (udf r).toOption = none)
    (hok : ∃ r ∈ rows, (udf r).toOption ≠ none) :
    (trackColumn (applyUdfRows udf rows)).n = rows.length ∧
    (trackColumn (applyUdfRows udf rows)).null
      = (rows.filter fun r => (udf r).toOption.isNone).length ∧
    (trackColumn (applyUdfRows udf rows)).nonNull
      = (rows.filter fun r => (udf r).toOption.isSome).length ∧
    (trackColumn (rows.map fun r => some (g r))).null = 0 ∧
    (trackColumn (rows.map fun r => some (g r))).n = rows.length := by
  have hnull : (trackColumn (applyUdfRows udf rows)).null
      = rows.countP fun r => (udf r).toOption.isNone := by
    simp only [trackColumn, applyUdfRows, List.countP_map]
    rfl
  refine ⟨?_, ?_, ?_, ?_, ?_⟩
  · simp [trackColumn, applyUdfRows]
  · rw [hnull, List.countP_eq_length_filter]
  · have hps : (fun r : ℚ => !((udf r).toOption.isNone))
        = fun r : ℚ => (udf r).toOption.isSome := by
      funext r
      cases (udf r).toOption <;> rfl
    have hlen := countP_add_countP_not (fun r : ℚ => (udf r).toOption.isNone) rows
    rw [hps] at hlen
    have hn : (trackColumn (applyUdfRows udf rows)).n = rows.length := by
      simp [trackColumn, applyUdfRows]
    rw [ColumnCounts.nonNull, hn, hnull, ← List.countP_eq_length_filter]
    omega
  · simp [trackColumn, List.countP_map, Function.comp]
  · simp [trackColumn]

/-- C3 witness: the theorem instantiated at a UDF failing on the first two of
four rows. -/
theorem udf_failure_null_counts_witness :
    (∃ r ∈ ([1, 2, 3, 4] : List ℚ), (exampleUdf r).toOption = none) ∧
    (∃ r ∈ ([1, 2, 3, 4] : List ℚ), (exampleUdf r).toOption ≠ none) ∧
    ((trackColumn (applyUdfRows exampleUdf [1, 2, 3, 4])).n
        = ([1, 2, 3, 4] : List ℚ).length ∧
      (trackColumn (applyUdfRows exampleUdf [1, 2, 3, 4])).null
        = (([1, 2, 3, 4] : List ℚ).filter fun r => (exampleUdf r).toOption.isNone).length ∧
      (trackColumn (applyUdfRows exampleUdf [1, 2, 3, 4])).nonNull
        = (([1, 2, 3, 4] : List ℚ).filter fun r => (exampleUdf r).toOption.isSome).length ∧
      (trackColumn (([1, 2, 3, 4] : List ℚ).map fun r => some (r + 5))).null = 0 ∧
      (trackColumn (([1, 2, 3, 4] : List ℚ).map fun r => some (r + 5))).n
        = ([1, 2, 3, 4] : List ℚ).length) := by
  have hf : ∃ r ∈ ([1, 2, 3, 4] : List ℚ), (exampleUdf r).toOption = none := by decide
  have ho : ∃ r ∈ ([1, 2, 3, 4] : List ℚ), (exampleUdf r).toOption ≠ none := by decide
  exact ⟨hf, ho, udf_failure_null_counts exampleUdf (fun r => r + 5) [1, 2, 3, 4] hf ho⟩

/-- C7: when no other validator is registered for the column, registering a
second condition under an already-registered condition name for that column
replaces the prior registration — the built schema carries exactly one
validator entry for the column, holding the most recently registered
predicate. -/
theorem validator_reregister_replaces (reg : List ValidatorRecord) (col cname : String)
    (p1 p2 : ℚ → Bool) (hclean : ∀ r ∈ reg, r.column_name ≠ col) :
    schemaValidators
        (registerValidator (registerValidator reg ⟨col, cname, p1⟩) ⟨col, cname, p2⟩) col
      = [⟨col, cname, p2⟩] := by
  have hmatch : ∀ r ∈ reg, (r.column_name == col && r.condition_name == cname) = false := by
    intro r hr
    simp [beq_eq_false_iff_ne.mpr (hclean r hr)]
  have hany1 : (reg.any fun r => r.column_name == col && r.condition_name == cname) = false :=
    any_eq_false_of_false reg _ hmatch
  have h1 : registerValidator reg ⟨col, cname, p1⟩ = reg ++ [⟨col, cname, p1⟩] := by
    simp [registerValidator, hany1]
  have h2 : registerValidator (reg ++ [⟨col, cname, p1⟩]) ⟨col, cname, p2⟩
      = reg ++ [⟨col, cname, p2⟩] := by
    simp only [registerValidator]
    rw [if_pos]
    · rw [List.map_append]
      congr 1
      · exact map_eq_self reg _ fun r hr => by simp [hmatch r hr]
      · simp
    · simp [List.any_append, hany1]
  rw [h1, h2]
  unfold schemaValidators
  rw [List.filter_append,
    filter_eq_nil_of_false reg _ fun r hr => beq_eq_false_iff_ne.mpr (hclean r hr)]
  simp

/-- C7 witness: the theorem instantiated at an empty prior registry and two
concrete predicates. -/
theorem validator_reregister_replaces_witness :
    (∀ r ∈ ([] : List ValidatorRecord), r.column_name ≠ "col1") ∧
    schemaValidators
        (registerValidator
          (registerValidator [] ⟨"col1", "less_than_four", fun x => decide (x < 4)⟩)
          ⟨"col1", "less_than_four", fun x => decide (x ≤ 4)⟩) "col1"
      = [⟨"col1", "less_than_four", fun x => decide (x ≤ 4)⟩] := by
  have hc : ∀ r ∈ ([] : List ValidatorRecord), r.column_name ≠ "col1" := by
    intro r hr
    cases hr
  exact ⟨hc, validator_reregister_replaces [] "col1" "less_than_four" _ _ hc⟩

/-- C8: the resolved metric set of a newly seen column is the union of the
metrics of every matching resolver spec minus the column's anti-metrics
(never containing an anti-metric); in particular, under the standard
resolver an Integral derived column with anti-metrics cardinality and
distribution keeps exactly counts, types and ints, and a column without
anti-metrics keeps the full default set. -/
theorem resolved_metrics_union_minus_anti (specs : List ResolverSpec) (t : ColumnType)
    (anti : List MetricKind) :
    (resolveMetrics specs t anti = resolveMetrics specs t [] \ anti.toFinset ∧
      resolveMetrics specs t anti ∩ anti.toFinset = ∅) ∧
    resolveMetrics STANDARD_RESOLVER ColumnType.Integral
        [MetricKind.cardinality, MetricKind.distribution]
      = {MetricKind.counts, MetricKind.types, MetricKind.ints} ∧
    resolveMetrics STANDARD_RESOLVER ColumnType.Integral []
      = {MetricKind.counts, MetricKind.distribution, MetricKind.types,
          MetricKind.cardinality, MetricKind.ints} := by
  refine ⟨⟨?_, ?_⟩, ?_, ?_⟩
  · simp [resolveMetrics]
  · ext x
    simp [resolveMetrics]
  · decide
  · decide

/-- C10: logging through a UDF schema leaves the caller's data unchanged —
the key set of the returned caller data equals the input's — while the
produced view's columns are the input columns plus every derived column. -/
theorem log_leaves_caller_columns_unchanged (udfs : List (String × (RowData → ℚ)))
    (data : RowData) :
    (why_log udfs data).1.keys = data.keys ∧
    (why_log udfs data).2.columnNames = data.keys ++ udfs.map Prod.fst := by
  refine ⟨rfl, ?_⟩
  simp only [why_log, apply_udfs, RowData.keys, List.map_append, List.map_map]
  rfl

end Whylogs.Udf
